import Mathlib

/-
Shallow embedding of the CDP (Chrome DevTools Protocol) client core of the
`staticpwn/travian` repository: the correlated-call loop `_cdp_call`, the
element-click routine `click_element` and its centroid computation
(src/gather_utils.py), the readiness poller `wait_until_loader_hidden`
(src/gather_utils.py), and the target resolver `pick_target`, the navigation
routine `navigate_to_site` and the single-recv HTML fetch
`get_outer_html_from_diag` (src/utility_functions.py).

Modelling conventions:
- Inbound websocket frames are modelled by `Frame`, carrying exactly the
  fields the code projects out of the parsed JSON: `data.get("id")`,
  the presence/content of `data["error"]`, the nested
  `data["result"]["result"]["value"]`, and the raw wire text.
- Wall-clock time is modelled by rationals; `time.time()` advances by the
  durations recorded in the inbound event list.  0.05 is the rational 1/20.
- Python exceptions are values of `PyError` / `Except` results; a function
  "raises" by returning the error instead of a payload.
- Python string falsiness (`if not s:`) is modelled by `pyTruthy`.
-/

namespace Travian

/-- A parsed inbound message, restricted to the fields the client reads:
`raw` is the wire text (`raw`/`res` in the source), `idField` models
`data.get("id")`, `errField` models `data["error"]` when `"error" in data`,
and `valField` models `data["result"]["result"]["value"]` when that nested
access succeeds and yields a string. -/
structure Frame where
  raw : String
  idField : Option Nat
  errField : Option String
  valField : Option String
deriving DecidableEq

/-- Outcome of one correlated call (`_cdp_call`, src/gather_utils.py lines 52-74):
the matching reply, the `RuntimeError` raised on an error reply (line 72),
or the `TimeoutError` raised when the deadline elapses (line 74). -/
inductive CdpResult where
  | ok (data : Frame)
  | remoteError (msg : String)
  | timeoutError (msg : String)
deriving DecidableEq

/-- Message of the `TimeoutError` raised at src/gather_utils.py line 74. -/
def timeoutMsg (method : String) : String :=
  "Timed out waiting for response to " ++ method

/-- Message of the `RuntimeError` raised at src/gather_utils.py line 72. -/
def remoteMsg (method : String) (err : String) : String :=
  "CDP error for " ++ method ++ ": " ++ err

/-- The receive loop of `_cdp_call` (src/gather_utils.py lines 60-73), with time
abstracted away: the list holds the inbound receive results in order, `none`
modelling a falsy frame (`if not raw: continue`, line 66-67) and `some f` a
parsed frame.  The end of the list models the receive timing out
(`WebSocketTimeoutException`, lines 64-65), on which the loop breaks and the
`TimeoutError` of line 74 is raised.  A frame whose id equals `msgId` is
returned (or raises `RuntimeError` if it carries an error field); any other
frame — unsolicited event without id, or reply to a different id — is
discarded and the wait continues (line 70). -/
def cdpRecvLoop (msgId : Nat) (method : String) : List (Option Frame) → CdpResult
  | [] => .timeoutError (timeoutMsg method)
  | none :: rest => cdpRecvLoop msgId method rest
  | some f :: rest =>
    if f.idField == some msgId then
      match f.errField with
      | some e => .remoteError (remoteMsg method e)
      | none => .ok f
    else cdpRecvLoop msgId method rest

/-- Initial value of the process-wide counter `_cdp_msg_id`
(src/gather_utils.py line 51). -/
def cdpMsgIdInit : Nat := 1000

/-- `_cdp_call` (src/gather_utils.py lines 52-74), untimed: increments the
process-wide counter and uses the new value as the outbound id (lines 54-56),
sends, then runs the receive loop.  Returns the call result together with the
new counter value; the allocation happens before the loop and is therefore
independent of the call's outcome. -/
def cdpCall (counter : Nat) (method : String) (events : List (Option Frame)) :
    CdpResult × Nat :=
  (cdpRecvLoop (counter + 1) method events, counter + 1)

/-- A sequence of `_cdp_call` invocations threading the process-wide counter:
each entry supplies the method name and the inbound events seen by that call.
Returns the list of (allocated id, result) pairs and the final counter. -/
def cdpSession (counter : Nat) :
    List (String × List (Option Frame)) → List (Nat × CdpResult) × Nat
  | [] => ([], counter)
  | (m, evs) :: rest =>
    let r := cdpCall counter m evs
    let s := cdpSession r.2 rest
    ((r.2, r.1) :: s.1, s.2)

/-- The 0.05 lower bound applied to every receive timeout
(src/gather_utils.py line 61). -/
def floorTimeout : ℚ := 1 / 20

/-- The receive loop of `_cdp_call` with wall-clock time (src/gather_utils.py
lines 59-74).  `now` is the current time, `deadline` the absolute deadline of
line 59.  Each inbound event `(d, raw)` says that the next receive result
would be available `d` time-units after the receive starts (`raw = none`
being a falsy frame).  Each iteration mirrors the source: check
`time.time() < deadline` (line 60), set the socket timeout to
`max(0.05, deadline - time.time())` (line 61), then receive: if the data
would arrive no earlier than the socket timeout, the receive raises
`WebSocketTimeoutException`, the loop breaks (line 65) and `TimeoutError` is
raised; otherwise time advances by `d` and the frame is handled as in the
untimed loop.  Returns the result together with the list of socket-timeout
values used, in order. -/
def cdpRecvLoopT (msgId : Nat) (method : String) (deadline : ℚ) (now : ℚ) :
    List (ℚ × Option Frame) → CdpResult × List ℚ
  | [] =>
    if now < deadline then
      (.timeoutError (timeoutMsg method), [max floorTimeout (deadline - now)])
    else (.timeoutError (timeoutMsg method), [])
  | (d, raw) :: rest =>
    if now < deadline then
      let tmo := max floorTimeout (deadline - now)
      if tmo ≤ d then (.timeoutError (timeoutMsg method), [tmo])
      else
        match raw with
        | none =>
          let r := cdpRecvLoopT msgId method deadline (now + d) rest
          (r.1, tmo :: r.2)
        | some f =>
          if f.idField == some msgId then
            match f.errField with
            | some e => (.remoteError (remoteMsg method e), [tmo])
            | none => (.ok f, [tmo])
          else
            let r := cdpRecvLoopT msgId method deadline (now + d) rest
            (r.1, tmo :: r.2)
    else (.timeoutError (timeoutMsg method), [])

/-- Arrival clock of the timed receive loop: the time at which the k-th
receive attempt starts, `now` plus the durations of the first k events. -/
def arriveAt (now : ℚ) (events : List (ℚ × Option Frame)) (k : Nat) : ℚ :=
  now + ((events.take k).map Prod.fst).sum

/-- The inbound event bears a frame with exactly the awaited id. -/
def matchesId (msgId : Nat) (ev : ℚ × Option Frame) : Bool :=
  match ev.2 with
  | some f => f.idField == some msgId
  | none => false

/-- Every receive attempt up to index i starts strictly before the deadline
and its event arrives strictly before its socket timeout fires — the
condition under which the timed loop actually processes events 0..i. -/
def ReceivedUpTo (deadline now : ℚ) (events : List (ℚ × Option Frame)) (i : Nat) : Prop :=
  ∀ j, j ≤ i → ∀ hj : j < events.length,
    arriveAt now events j < deadline ∧
    events[j].1 < max floorTimeout (deadline - arriveAt now events j)

/-- Python truthiness for an optional string (`if not s:`): absent and empty
strings are falsy. -/
def pyTruthy (s : Option String) : Bool :=
  match s with
  | some v => !(v == "")
  | none => false

/-- Python `str.lower()`, per character (ASCII is what the code compares). -/
def pyLower (s : String) : String := String.mk (s.data.map Char.toLower)

/-- Prefix test on character lists. -/
def listIsPrefix : List Char → List Char → Bool
  | [], _ => true
  | _ :: _, [] => false
  | a :: as, b :: bs => a == b && listIsPrefix as bs

/-- Substring test on character lists (Python `needle in s`). -/
def listContains (needle : List Char) : List Char → Bool
  | [] => listIsPrefix needle []
  | c :: rest => listIsPrefix needle (c :: rest) || listContains needle rest

/-- Python `needle in s` on strings. -/
def strContains (s needle : String) : Bool := listContains needle.data s.data

/-- Python `s.startswith(p)` on strings. -/
def strStartsWith (s p : String) : Bool := listIsPrefix p.data s.data

/-- A devtools target descriptor, restricted to the fields the code reads
(`t.get("type")`, `t.get("url", "")`, `t.get("title", "")`,
`t.get("webSocketDebuggerUrl")`).  A missing `type`, `url` or `title` is
modelled by `""`, which the code's comparisons cannot distinguish from an
absent key. -/
structure Target where
  type : String
  url : String
  title : String
  webSocketDebuggerUrl : Option String
deriving DecidableEq

/-- The page filter of `pick_target` (src/utility_functions.py line 295):
page-typed targets whose url starts with `http://` or `https://`. -/
def isHttpPage (t : Target) : Bool :=
  t.type == "page" && (strStartsWith t.url "http://" || strStartsWith t.url "https://")

/-- The per-target selector test of `pick_target` (lines 299 and 303): the
lowercased needle is a substring of the lowercased url or of the lowercased
title. -/
def targetMatches (needle : String) (t : Target) : Bool :=
  strContains (pyLower t.url) needle || strContains (pyLower t.title) needle

/-- The `for t in ...: if ...: return t` scan of `pick_target`
(lines 298-300 and 302-304). -/
def findMatchLoop (needle : String) : List Target → Option Target
  | [] => none
  | t :: rest => if targetMatches needle t then some t else findMatchLoop needle rest

/-- Outcome of `pick_target`: a target, or the `LookupError` raised at
lines 305-306 / 312. -/
inductive PickResult where
  | found (t : Target)
  | lookupError (msg : String)
deriving DecidableEq

/-- The selector-free branch of `pick_target` (lines 308-312): first
page-typed http(s) target, else first target of any kind, else `LookupError`. -/
def pickNoSelector (targets : List Target) : PickResult :=
  match targets.filter isHttpPage with
  | t :: _ => .found t
  | [] =>
    match targets with
    | t :: _ => .found t
    | [] => .lookupError "No devtools targets available."

/-- `pick_target` (src/utility_functions.py lines 286-312).  With a truthy
selector: scan the page-typed http(s) targets first, then all targets, for
the first case-insensitive substring match against url or title; raise
`LookupError` if none matches.  With no (or a falsy) selector: delegate to
the selector-free branch. -/
def pick_target (targets : List Target) (selector : Option String) : PickResult :=
  if pyTruthy selector then
    let needle := pyLower (selector.getD "")
    match findMatchLoop needle (targets.filter isHttpPage) with
    | some t => .found t
    | none =>
      match findMatchLoop needle targets with
      | some t => .found t
      | none => .lookupError "No target found matching selector."
  else pickNoSelector targets

/-- Modelled from the spec and claim C7 wording, for comparison with the
source: "returns the first page-typed target whose url or title contains the
selector case-insensitively, falling back to the first such match among all
targets" — i.e. the primary scan runs over all page-typed targets, without
the http(s)-url restriction the source applies. -/
def pick_target_claimed (targets : List Target) (selector : Option String) : PickResult :=
  if pyTruthy selector then
    let needle := pyLower (selector.getD "")
    match findMatchLoop needle (targets.filter (fun t => t.type == "page")) with
    | some t => .found t
    | none =>
      match findMatchLoop needle targets with
      | some t => .found t
      | none => .lookupError "No target found matching selector."
  else pickNoSelector targets

/-- Python exceptions escaping the modelled routines. -/
inductive PyError where
  | typeError (msg : String)
  | valueError (msg : String)
  | runtimeError (msg : String)
  | timeoutError (msg : String)
  | requestError (msg : String)
  | connectError (msg : String)
deriving DecidableEq

/-- Keyword arguments that `def _cdp_call(ws, method, params=None, timeout=6.0)`
(src/gather_utils.py line 52) accepts beyond its positional parameters.
Python checks keyword binding before the function body runs: an invocation
with any other keyword raises `TypeError` without sending anything. -/
def cdpCallKwOk (kw : String) : Bool := kw == "params" || kw == "timeout"

/-- Message of the `TypeError` Python raises when `_cdp_call` is invoked with
the keyword `timeout_s` (as `click_element` does at lines 117, 118, 124-126). -/
def kwTypeErrorMsg : String :=
  "_cdp_call() got an unexpected keyword argument " ++ "timeout_s"

/-- The params dict of one `Input.dispatchMouseEvent` call, restricted to the
keys `click_element` passes (lines 124-126): the move event carries no
`button` and no `clickCount` key. -/
structure MousePayload where
  type : String
  x : ℚ
  y : ℚ
  button : Option String
  clickCount : Option Nat
deriving DecidableEq

/-- One step of the click loop body: a `_cdp_call` dispatch carrying its
keyword-argument name, or a `time.sleep`. -/
inductive ClickStep where
  | dispatch (kw : String) (p : MousePayload)
  | sleep (d : ℚ)
deriving DecidableEq

/-- The body of `for i in range(click_count)` (src/gather_utils.py
lines 123-127): move, press, release at the computed point — the move event
with no button key, press and release with `button="left"` and
`clickCount=1` — each invoked with the keyword `timeout_s`, followed by
`time.sleep(0.05)`. -/
def clickRepetition (x y : ℚ) : List ClickStep :=
  [ .dispatch "timeout_s" ⟨"mouseMoved", x, y, none, none⟩,
    .dispatch "timeout_s" ⟨"mousePressed", x, y, some "left", some 1⟩,
    .dispatch "timeout_s" ⟨"mouseReleased", x, y, some "left", some 1⟩,
    .sleep floorTimeout ]

/-- The whole click loop: `click_count` repetitions of `clickRepetition`. -/
def clickSteps : Nat → ℚ → ℚ → List ClickStep
  | 0, _, _ => []
  | n + 1, x, y => clickRepetition x y ++ clickSteps n x y

/-- Executes the click-loop steps.  Each dispatch first goes through Python
keyword binding: a bad keyword raises `TypeError` before anything is sent.
A dispatch that binds consults `outcomes k` (the remote outcome of the k-th
executed dispatch); a raised error propagates and aborts the remaining
steps.  Returns the result and the list of mouse events actually
dispatched, in order. -/
def runClickSteps (outcomes : Nat → Option PyError) :
    Nat → List ClickStep → Except PyError Unit × List MousePayload
  | _, [] => (.ok (), [])
  | k, .sleep _ :: rest => runClickSteps outcomes k rest
  | k, .dispatch kw p :: rest =>
    if cdpCallKwOk kw then
      match outcomes k with
      | some e => (.error e, [])
      | none =>
        let r := runClickSteps outcomes (k + 1) rest
        (r.1, p :: r.2)
    else (.error (.typeError kwTypeErrorMsg), [])

/-- The centroid computation of `click_element` (src/gather_utils.py
lines 119-121): average the four corner x's (content[0,2,4,6]) and the four
corner y's (content[1,3,5,7]) of the content quad.  Numbers are modelled as
exact rationals. -/
def clickPoint (content : List ℚ) : ℚ × ℚ :=
  ((content.getD 0 0 + content.getD 2 0 + content.getD 4 0 + content.getD 6 0) / 4,
   (content.getD 1 0 + content.getD 3 0 + content.getD 5 0 + content.getD 7 0) / 4)

/-- Python slicing `l[::2]`: every second element starting at index 0. -/
def everySecond : List ℚ → List ℚ
  | [] => []
  | [a] => [a]
  | a :: _ :: rest => a :: everySecond rest

/-- The centroid computation of `set_dates_and_run` (src/gather_utils.py
lines 385-387): `x = sum(content[::2]) / 4`, `y = sum(content[1::2]) / 4`. -/
def setDatesPoint (content : List ℚ) : ℚ × ℚ :=
  ((everySecond content).sum / 4, (everySecond (content.drop 1)).sum / 4)

/-- A `_cdp_call` reply, restricted to the fields `click_element` projects:
`doc["result"]["root"]["nodeId"]`, `q["result"]["nodeId"]`, and
`bm["result"]["model"]["content"]`. -/
structure ClickReply where
  rootNodeId : Nat
  nodeId : Nat
  content : List ℚ
deriving DecidableEq

/-- Environment of one `click_element` run: the outcome of the target
discovery request, of `create_connection`, of the k-th executed `_cdp_call`
(in invocation order), and of the k-th executed mouse dispatch. -/
structure ClickEnv where
  targets : Except String (List Target)
  connectErr : Option String
  calls : Nat → Except PyError ClickReply
  dispatchErr : Nat → Option PyError

/-- The `try: Debugger.enable; setSkipAllPauses; setPauseOnExceptions
except Exception: pass` block (src/gather_utils.py lines 100-105), starting
at call index k: returns the index of the next `_cdp_call` after the block
(a failing call ends the block early and is swallowed). -/
def clickDebuggerBlock (env : ClickEnv) (k : Nat) : Nat :=
  match env.calls k with
  | .error _ => k + 1
  | .ok _ =>
    match env.calls (k + 1) with
    | .error _ => k + 2
    | .ok _ => k + 3

/-- The tail of `click_element` after the selector query resolved a non-zero
node id (src/gather_utils.py lines 116-129): scroll-into-view and box-model
calls, then the click loop.  All of these invoke `_cdp_call` with the
keyword `timeout_s`, so keyword binding is checked first; the code below the
first rejected binding is dead in the source and kept here for fidelity. -/
def clickAfterQuery (env : ClickEnv) (k : Nat) (clickCount : Nat) :
    Except PyError Bool × List MousePayload :=
  if cdpCallKwOk "timeout_s" then
    match env.calls k with
    | .error e => (.error e, [])
    | .ok _ =>
      if cdpCallKwOk "timeout_s" then
        match env.calls (k + 1) with
        | .error e => (.error e, [])
        | .ok bm =>
          let p := clickPoint bm.content
          let r := runClickSteps env.dispatchErr 0 (clickSteps clickCount p.1 p.2)
          (Except.map (fun _ => true) r.1, r.2)
      else (.error (.typeError kwTypeErrorMsg), [])
  else (.error (.typeError kwTypeErrorMsg), [])

/-- `click_element` (src/gather_utils.py lines 76-134): target discovery,
connection, domain enables, the swallowed debugger block, document root and
selector query, then `clickAfterQuery`.  Returns the result (`.ok true` is
the `return True` of line 129) and the list of mouse events actually
dispatched. -/
def click_element (env : ClickEnv) (clickCount : Nat) :
    Except PyError Bool × List MousePayload :=
  match env.targets with
  | .error e => (.error (.requestError e), [])
  | .ok ts =>
  match ts.find? (fun t => t.type == "page") with
  | none => (.error (.runtimeError "No page targets found on DevTools endpoint."), [])
  | some page =>
  match page.webSocketDebuggerUrl with
  | none => (.error (.runtimeError "Selected target has no webSocketDebuggerUrl."), [])
  | some _ =>
  match env.connectErr with
  | some e => (.error (.connectError e), [])
  | none =>
  match env.calls 0 with
  | .error e => (.error e, [])
  | .ok _ =>
  match env.calls 1 with
  | .error e => (.error e, [])
  | .ok _ =>
  match env.calls 2 with
  | .error e => (.error e, [])
  | .ok _ =>
  match env.calls (clickDebuggerBlock env 3) with
  | .error e => (.error e, [])
  | .ok _ =>
  match env.calls (clickDebuggerBlock env 3 + 1) with
  | .error e => (.error e, [])
  | .ok q =>
  if q.nodeId == 0 then (.error (.valueError "Element not found for selector"), [])
  else clickAfterQuery env (clickDebuggerBlock env 3 + 2) clickCount

/-- The polling loop of `wait_until_loader_hidden` (src/gather_utils.py
lines 285-295).  Each sample `(v, d)` is one evaluation of the visibility
predicate: `v` its value, `d` the time it took; `time.sleep(pollInterval)`
adds `pollInterval` before the next deadline check.  Mirrors the source:
while `now < deadline`, evaluate; a false sample increments the stable
counter and returns `some true` once it reaches `thr`; a true sample resets
the counter to 0; when the deadline elapses return `some false`.  `none`
means the sample list ran out while the loop would still be polling. -/
def waitLoop (thr : Nat) (pollInterval deadline : ℚ) :
    ℚ → Nat → List (Bool × ℚ) → Option Bool
  | now, _, [] => if now < deadline then none else some false
  | now, stable, (v, d) :: rest =>
    if now < deadline then
      if v then waitLoop thr pollInterval deadline (now + d + pollInterval) 0 rest
      else
        if thr ≤ stable + 1 then some true
        else waitLoop thr pollInterval deadline (now + d + pollInterval) (stable + 1) rest
    else some false

/-- `wait_until_loader_hidden` (src/gather_utils.py lines 275-295), started
at time 0 with stable counter 0; the defaults are timeout 30, poll interval
0.25 and 2 required stable samples. -/
def wait_until_loader_hidden (timeout pollInterval : ℚ) (thr : Nat)
    (samples : List (Bool × ℚ)) : Option Bool :=
  waitLoop thr pollInterval timeout 0 0 samples

/-- Start time of the j-th poll iteration: time 0 plus, for each earlier
sample, its evaluation time and one poll-interval sleep. -/
def pollStart (pollInterval : ℚ) (samples : List (Bool × ℚ)) (j : Nat) : ℚ :=
  ((samples.take j).map (fun s => s.2 + pollInterval)).sum

/-- Length of the run of consecutive false samples that position n must
open to drive the stable counter from `stable` up to the threshold: a run
starting at the very next sample continues the current count, any later run
starts from a reset counter. -/
def windowLen (thr stable n : Nat) : Nat := if n = 0 then thr - stable else thr

/-- Some position n opens a long-enough run of consecutive false samples
whose last poll still starts before the deadline. -/
def FalseWindow (thr : Nat) (pollInterval deadline now : ℚ) (stable : Nat)
    (samples : List (Bool × ℚ)) : Prop :=
  ∃ n, n + windowLen thr stable n ≤ samples.length ∧
    (∀ j, n ≤ j → j < n + windowLen thr stable n → ∀ hj : j < samples.length,
      samples[j].1 = false) ∧
    now + pollStart pollInterval samples (n + windowLen thr stable n - 1) < deadline

/-- The result dict of `navigate_to_site` (src/utility_functions.py
lines 340-348): the seven keys every return path carries. -/
structure NavResult where
  ok : Bool
  final_url : Option String
  title : Option String
  timed_out : Bool
  nav_time_s : Option ℚ
  html : Option String
  error : Option String
deriving DecidableEq

/-- The initial result dict (lines 340-348): everything unset, flags false. -/
def navInit : NavResult :=
  { ok := false, final_url := none, title := none, timed_out := false,
    nav_time_s := none, html := none, error := none }

/-- Environment of one `navigate_to_site` run: the outcome of the discovery
request, of `create_connection`, the elapsed time recorded at line 420, and
the frames returned by the two `recv_with_timeout` attempts of the HTML
fetch (`none` = the receive timed out and returned `None`). -/
structure NavEnv where
  targets : Except String (List Target)
  connectErr : Option String
  navTime : ℚ
  fetch1 : Option Frame
  fetch2 : Option Frame

/-- Target resolution of `navigate_to_site` (lines 352-362): when `ws_url`
is falsy, pick a target (with the selector only if truthy, line 353) and
require its `webSocketDebuggerUrl`; every failure is the exception text the
outer handler will catch. -/
def navResolveWs (env : NavEnv) (wsUrl targetSelector : Option String) :
    Except String Unit :=
  if pyTruthy wsUrl then .ok ()
  else
    match env.targets with
    | .error e => .error e
    | .ok ts =>
      match pick_target ts (if pyTruthy targetSelector then targetSelector else none) with
      | .lookupError m => .error m
      | .found t =>
        match t.webSocketDebuggerUrl with
        | some _ => .ok ()
        | none => .error "Target does not expose webSocketDebuggerUrl."

/-- The fallback branch of the HTML fetch (lines 433-437): send id 31, take
the next frame, use its value only if its id is 31. -/
def navFetchFallback (env : NavEnv) : Option String × List Nat :=
  match env.fetch2 with
  | some f => if f.idField == some 31 then (f.valField, [30, 31]) else (none, [30, 31])
  | none => (none, [30, 31])

/-- The HTML fetch of `navigate_to_site` (lines 424-437): send id 30, take
the next frame from the channel — a single receive, with no discard loop —
and use its value only if its id is 30; otherwise fall back to id 31.
Returns the html value and the ids sent.  Exceptions inside this block are
swallowed by the inner handler (lines 438-440). -/
def navFetchHtml (env : NavEnv) : Option String × List Nat :=
  match env.fetch1 with
  | some f => if f.idField == some 30 then (f.valField, [30]) else navFetchFallback env
  | none => navFetchFallback env

/-- `navigate_to_site` (src/utility_functions.py lines 316-454).  Returns the
result dict together with the ids of the frames sent on the connection, in
order: the enable commands are sent with the fixed ids 1, 2, 3, the debugger
commands with 4, 5, 6 (when `set_skip_all_pauses`), `Page.navigate` with 10
(when `url` is truthy), and the HTML fetch with 30 and 31.  Every exception
is caught at lines 452-454, which record its text and return the dict;
`timed_out` is never assigned anywhere in the body, and line 449 sets
`ok = not result["timed_out"]`. -/
def navigate_to_site (env : NavEnv) (wsUrl targetSelector url : Option String)
    (setSkipAllPauses returnHtml : Bool) : NavResult × List Nat :=
  match navResolveWs env wsUrl targetSelector with
  | .error e => ({ navInit with error := some e }, [])
  | .ok _ =>
  match env.connectErr with
  | some e => ({ navInit with error := some e }, [])
  | none =>
    let sent := [1, 2, 3]
      ++ (if setSkipAllPauses then [4, 5, 6] else [])
      ++ (if pyTruthy url then [10] else [])
    if returnHtml then
      let fh := navFetchHtml env
      ({ navInit with ok := !navInit.timed_out, nav_time_s := some env.navTime, html := fh.1 },
        sent ++ fh.2)
    else
      ({ navInit with ok := !navInit.timed_out, nav_time_s := some env.navTime }, sent)

/-- Outcome of `get_outer_html_from_diag`: the extracted value, the raw wire
text returned by the `except` fallback at lines 501-502, or the exception of
a receive that got nothing. -/
inductive OuterHtmlResult where
  | value (v : String)
  | rawText (r : String)
  | failed (e : String)
deriving DecidableEq

/-- The receive-and-parse tail of `get_outer_html_from_diag`
(src/utility_functions.py lines 493-502), given the inbound frames: a single
`ws.recv()` with no id filtering takes the first frame; if the nested
`res_json["result"]["result"]["value"]` access succeeds its value is
returned, otherwise the raw text of that same frame is returned.  (The
preceding target-discovery and connection steps, lines 462-493, raise on
their own failures and are not needed by the claims about this routine.) -/
def get_outer_html_from_diag (inbound : List Frame) : OuterHtmlResult :=
  match inbound with
  | [] => .failed "recv timed out"
  | f :: _ =>
    match f.valField with
    | some v => .value v
    | none => .rawText f.raw

/-- The subsequence of inbound receive events that are frames bearing an id
field: falsy frames and id-less notification messages removed. -/
def idFrames (events : List (Option Frame)) : List Frame :=
  (events.filterMap id).filter (fun f => f.idField.isSome)

/-! Concrete fixtures used by the witnesses and counterexamples below. -/

/-- The first target of the testable-property instance for `pick_target`. -/
def targetA : Target := ⟨"page", "http://a", "", none⟩

/-- The second target of the testable-property instance for `pick_target`. -/
def targetB : Target := ⟨"page", "http://b/target", "", none⟩

/-- A page-typed target with a non-http url whose title matches "target". -/
def targetChrome : Target := ⟨"page", "chrome://newtab", "target page", some "ws0"⟩

/-- A reply frame carrying an extractable html value. -/
def replyFrame : Frame := ⟨"RAWREPLY", some 1, none, some "H"⟩

/-- A reply frame to the id-30 html fetch of `navigate_to_site`. -/
def reply30Frame : Frame := ⟨"RAW30", some 30, none, some "H"⟩

/-- An unsolicited notification: no id field. -/
def notifFrame : Frame := ⟨"RAWNOTIF", none, none, none⟩

/-- A navigation environment in which the id-30 reply is the first inbound
frame. -/
def navEnvReply30 : NavEnv := ⟨.ok [], none, 0, some reply30Frame, none⟩

/-- The same inbound traffic as `navEnvReply30` with one notification
inserted in front of the reply. -/
def navEnvNotifFirst : NavEnv := ⟨.ok [], none, 0, some notifFrame, some reply30Frame⟩

/-- A navigation environment in which both html-fetch receives time out. -/
def navEnvAllTimeouts : NavEnv := ⟨.ok [], none, 0, none, none⟩

/-- A page target exposing a websocket url, for `click_element` runs. -/
def pageTarget : Target := ⟨"page", "http://x", "", some "ws"⟩

/-- A `click_element` environment in which discovery, connection and every
executed `_cdp_call` succeed, the selector query resolves node id 7, and the
box model is the unit-example quad. -/
def clickEnvOk : ClickEnv :=
  ⟨.ok [pageTarget], none, fun _ => .ok ⟨1, 7, [0, 0, 10, 0, 10, 10, 0, 10]⟩, fun _ => none⟩

/-- A matching reply frame for the timed-loop counterexample (id 1001). -/
def frame1001 : Frame := ⟨"RAW1001", some 1001, none, none⟩

/-!
## Theorems
-/

/-- The untimed receive loop of `_cdp_call` is determined by the first
id-bearing frame whose id matches: error replies raise, matches return,
everything else is discarded and the list end times out. -/
theorem cdpRecvLoop_eq_find (msgId : Nat) (method : String) (events : List (Option Frame)) :
    cdpRecvLoop msgId method events =
      match (events.filterMap id).find? (fun f => f.idField == some msgId) with
      | some f =>
        match f.errField with
        | some e => CdpResult.remoteError (remoteMsg method e)
        | none => CdpResult.ok f
      | none => CdpResult.timeoutError (timeoutMsg method) := by
  induction events with
  | nil => rfl
  | cons ev rest ih =>
    cases ev with
    | none => simpa [cdpRecvLoop] using ih
    | some f =>
      by_cases h : f.idField == some msgId
      · simp [cdpRecvLoop, List.find?, h]
      · simp [cdpRecvLoop, List.find?, h, ih]

/-- C1: for every sequence of inbound messages, a correlated call
(`_cdp_call`) returns exactly the first inbound message whose id equals the
identifier allocated for that call (`counter + 1`); messages with no id and
messages with a different id are discarded and the wait continues; if the
matching message carries an error field, the call fails with the
`RuntimeError` naming the method; if no message matches, it fails with the
`TimeoutError`. -/
theorem cdp_call_returns_first_matching_reply (counter : Nat) (method : String)
    (events : List (Option Frame)) :
    (cdpCall counter method events).1 =
      match (events.filterMap id).find? (fun f => f.idField == some (counter + 1)) with
      | some f =>
        match f.errField with
        | some e => CdpResult.remoteError (remoteMsg method e)
        | none => CdpResult.ok f
      | none => CdpResult.timeoutError (timeoutMsg method) :=
  cdpRecvLoop_eq_find (counter + 1) method events

/-- C10: `navigate_to_site` never propagates an exception and always returns
the seven-key result dict (the `NavResult` record); its `timed_out` field is
false on every path — the flag is never assigned in the body — and `ok` is
true exactly on the paths where no exception was caught, i.e. where `error`
is `none`; a caught exception leaves `ok` false with `error` holding the
exception text. -/
theorem navigate_never_times_out (env : NavEnv) (wsUrl targetSelector url : Option String)
    (skip returnHtml : Bool) :
    (navigate_to_site env wsUrl targetSelector url skip returnHtml).1.timed_out = false ∧
    ((navigate_to_site env wsUrl targetSelector url skip returnHtml).1.ok = true ↔
      (navigate_to_site env wsUrl targetSelector url skip returnHtml).1.error = none) := by
  unfold navigate_to_site
  cases hr : navResolveWs env wsUrl targetSelector with
  | error e => simp [navInit]
  | ok u =>
    cases hc : env.connectErr with
    | some e => simp [navInit]
    | none => cases returnHtml <;> simp [navInit]

/-- C9: the click point computed from a content-box quad
`[x1,y1,x2,y2,x3,y3,x4,y4]` is the centroid — the arithmetic means of the
four corner x and four corner y coordinates — both in `click_element` and in
`set_dates_and_run`; for corners (0,0),(10,0),(10,10),(0,10) the computed
point is (5,5). -/
theorem click_point_is_centroid (x1 y1 x2 y2 x3 y3 x4 y4 : ℚ) :
    clickPoint [x1, y1, x2, y2, x3, y3, x4, y4] =
      ((x1 + x2 + x3 + x4) / 4, (y1 + y2 + y3 + y4) / 4) ∧
    setDatesPoint [x1, y1, x2, y2, x3, y3, x4, y4] =
      ((x1 + x2 + x3 + x4) / 4, (y1 + y2 + y3 + y4) / 4) ∧
    clickPoint [0, 0, 10, 0, 10, 10, 0, 10] = (5, 5) := by
  refine ⟨rfl, ?_, ?_⟩
  · simp [setDatesPoint, everySecond, Prod.ext_iff]
    constructor <;> ring
  · norm_num [clickPoint]

/-- The target-scan loops of `pick_target` are first-match searches. -/
theorem findMatchLoop_eq_find (needle : String) (ts : List Target) :
    findMatchLoop needle ts = ts.find? (targetMatches needle) := by
  induction ts with
  | nil => rfl
  | cons t rest ih => by_cases h : targetMatches needle t <;> simp [findMatchLoop, List.find?, h, ih]

/-- C7 counterexample: for the targets `[targetChrome, targetB]` — where
`targetChrome` is page-typed with a `chrome://` url and a matching title —
and selector "target", the source `pick_target` skips `targetChrome` in its
primary scan (it only scans page-typed targets with http(s) urls) and
returns `targetB`, whereas the claim's "first page-typed target whose url or
title contains the selector" is `targetChrome`. -/
theorem pick_target_http_restriction_counterexample :
    pick_target [targetChrome, targetB] (some "target") = .found targetB ∧
    pick_target_claimed [targetChrome, targetB] (some "target") = .found targetChrome ∧
    targetChrome ≠ targetB := by
  refine ⟨by decide, by decide, by decide⟩

/-- C7 (amended): with a truthy selector, `pick_target` returns the first
page-typed target with an http(s)-scheme url whose url or title contains the
selector case-insensitively — the primary scan is restricted to http(s)-url
pages, not all page-typed targets — falling back to the first such match
among all targets, and fails with a `LookupError` when nothing matches; with
no selector it returns the first page-typed http(s) target, else the first
target of any kind, and fails when the target list is empty; on the claim's
instance, selector "target" picks the second entry and no selector picks the
first. -/
theorem pick_target_characterization (ts : List Target) (sel : String) (hsel : sel ≠ "") :
    (pick_target ts (some sel) =
      match (ts.filter isHttpPage).find? (targetMatches (pyLower sel)) with
      | some t => PickResult.found t
      | none =>
        match ts.find? (targetMatches (pyLower sel)) with
        | some t => PickResult.found t
        | none => PickResult.lookupError "No target found matching selector.") ∧
    (pick_target ts none =
      match ((ts.filter isHttpPage).head?).or ts.head? with
      | some t => PickResult.found t
      | none => PickResult.lookupError "No devtools targets available.") ∧
    pick_target [targetA, targetB] (some "target") = .found targetB ∧
    pick_target [targetA, targetB] none = .found targetA := by
  refine ⟨?_, ?_, by decide, by decide⟩
  · simp [pick_target, pyTruthy, hsel, findMatchLoop_eq_find]
  · simp only [pick_target, pyTruthy, Bool.false_eq_true, if_false]
    cases hf : ts.filter isHttpPage with
    | cons t l => simp [pickNoSelector, hf]
    | nil =>
      cases ts with
      | nil => rfl
      | cons t l => simp [pickNoSelector, hf]

/-- Witness for the C7 theorem at the claim's own instance. -/
theorem pick_target_characterization_witness :
    pick_target [targetA, targetB] (some "target") = .found targetB ∧
    pick_target [targetA, targetB] none = .found targetA :=
  ⟨(pick_target_characterization [targetA, targetB] "target" (by decide)).2.2.1,
   (pick_target_characterization [targetA, targetB] "target" (by decide)).2.2.2⟩

/-- The ids allocated by a sequence of `_cdp_call`s are the consecutive
counter values `counter+1, ..., counter+n`, whatever each call's inbound
events and outcome are. -/
theorem cdpSession_ids (counter : Nat) (calls : List (String × List (Option Frame))) :
    (cdpSession counter calls).1.map Prod.fst = List.range' (counter + 1) calls.length := by
  induction calls generalizing counter with
  | nil => rfl
  | cons c rest ih =>
    cases c with
    | mk m evs => simp [cdpSession, cdpCall, ih, List.range'_succ, Nat.add_assoc]

/-- Sent-id discipline of `navigate_to_site`: within its single connection
the fixed ids are sent in strictly increasing order and all are at most
31 — in particular below every value the process-wide counter can allocate. -/
theorem navigate_sent_ids_increasing (env : NavEnv) (wsUrl targetSelector url : Option String)
    (skip returnHtml : Bool) :
    ((navigate_to_site env wsUrl targetSelector url skip returnHtml).2).Pairwise (· < ·) ∧
    ∀ i ∈ (navigate_to_site env wsUrl targetSelector url skip returnHtml).2, i ≤ 31 := by
  unfold navigate_to_site navFetchHtml navFetchFallback
  cases navResolveWs env wsUrl targetSelector with
  | error e => simp
  | ok u =>
    cases env.connectErr with
    | some e => simp
    | none =>
      cases hf1 : env.fetch1 <;> cases hf2 : env.fetch2 <;>
        cases skip <;> cases hu : pyTruthy url <;> cases returnHtml <;>
        simp only [hf1, hf2, hu] <;> (try split_ifs) <;> dsimp only <;> decide

/-- C3 counterexample: a correlated call allocates id 1001 from the
process-wide counter, yet a subsequent `navigate_to_site` run sends the
fixed ids 1, 2, 3, 4, 5, 6, 10, 30, 31 — constants, not counter
allocations — so the identifiers issued by the client are not strictly
increasing across this sequence of calls. -/
theorem navigate_ids_not_counter_allocated :
    (cdpCall cdpMsgIdInit "Page.enable" []).2 = 1001 ∧
    (navigate_to_site navEnvAllTimeouts (some "ws") none (some "http://site") true true).2 =
      [1, 2, 3, 4, 5, 6, 10, 30, 31] ∧
    ¬ ((cdpCall cdpMsgIdInit "Page.enable" []).2 ::
        (navigate_to_site navEnvAllTimeouts (some "ws") none (some "http://site") true true).2).Pairwise
        (· < ·) := by
  refine ⟨rfl, rfl, ?_⟩
  intro h
  rw [show (cdpCall cdpMsgIdInit "Page.enable" []).2 = 1001 from rfl,
    show (navigate_to_site navEnvAllTimeouts (some "ws") none (some "http://site") true true).2 =
      [1, 2, 3, 4, 5, 6, 10, 30, 31] from rfl] at h
  exact absurd ((List.pairwise_cons.mp h).1 1 (by decide)) (by decide)

/-- C3 (amended): ids allocated by `_cdp_call` come from the process-wide
monotonically increasing counter — across any sequence of `_cdp_call`s the
allocated ids are the consecutive counter values, strictly increasing and
never reused, including after calls that ended in `TimeoutError` — whereas
`navigate_to_site` sends fixed ids (1..31) on its own connection, which are
strictly increasing and unique within that connection and never collide
with counter-allocated ids (the counter starts at 1000). -/
theorem cdp_ids_strictly_increasing (counter : Nat)
    (calls : List (String × List (Option Frame)))
    (env : NavEnv) (wsUrl targetSelector url : Option String) (skip returnHtml : Bool) :
    (cdpSession counter calls).1.map Prod.fst = List.range' (counter + 1) calls.length ∧
    ((cdpSession counter calls).1.map Prod.fst).Pairwise (· < ·) ∧
    ((cdpSession counter calls).1.map Prod.fst).Pairwise (· ≠ ·) ∧
    ((navigate_to_site env wsUrl targetSelector url skip returnHtml).2).Pairwise (· < ·) ∧
    ∀ i ∈ (navigate_to_site env wsUrl targetSelector url skip returnHtml).2, i ≤ 31 := by
  have hids := cdpSession_ids counter calls
  have hlt : ((cdpSession counter calls).1.map Prod.fst).Pairwise (· < ·) := by
    rw [hids]; exact List.pairwise_lt_range' _ _
  exact ⟨hids, hlt, hlt.imp Nat.ne_of_lt,
    (navigate_sent_ids_increasing env wsUrl targetSelector url skip returnHtml).1,
    (navigate_sent_ids_increasing env wsUrl targetSelector url skip returnHtml).2⟩

/-- Witness for the C3 theorem: two calls from the initial counter allocate
1001 and 1002, and the id 1 sent by the concrete navigation run is bounded
by 31. -/
theorem cdp_ids_strictly_increasing_witness :
    (cdpSession 1000 [("Page.enable", []), ("Runtime.enable", [])]).1.map Prod.fst =
      List.range' 1001 2 ∧
    (1 : Nat) ≤ 31 := by
  have h := cdp_ids_strictly_increasing 1000 [("Page.enable", []), ("Runtime.enable", [])]
    navEnvAllTimeouts (some "ws") none (some "http://site") true true
  exact ⟨h.1, h.2.2.2.2 1 (by decide)⟩

/-- The untimed receive loop is insensitive to falsy frames and id-less
notification messages: it computes the same result on the subsequence of
id-bearing frames. -/
theorem cdpRecvLoop_eq_on_idFrames (msgId : Nat) (method : String)
    (events : List (Option Frame)) :
    cdpRecvLoop msgId method events = cdpRecvLoop msgId method ((idFrames events).map some) := by
  induction events with
  | nil => rfl
  | cons ev rest ih =>
    cases ev with
    | none => simpa [idFrames, cdpRecvLoop] using ih
    | some f =>
      cases hid : f.idField with
      | none =>
        have hskip : (f.idField == some msgId) = false := by simp [hid]
        simpa [cdpRecvLoop, idFrames, hid, hskip] using ih
      | some i =>
        have hsomef : idFrames (some f :: rest) = f :: idFrames rest := by
          simp [idFrames, hid]
        by_cases h : i = msgId
        · subst h
          simp [cdpRecvLoop, hsomef, hid]
        · have hne : (f.idField == some msgId) = false := by simp [hid, h]
          simp [cdpRecvLoop, hsomef, hne, ih]

/-- C8 (amended): messages without an id field are always ignored by the
correlated call `_cdp_call`: two inbound streams that agree on their
subsequences of id-bearing frames produce the same call result, so inserting
any number of notifications anywhere does not change what `_cdp_call`
returns.  (By the C8 counterexample this does not extend to the single-recv
html fetches of `navigate_to_site` and `get_outer_html_from_diag`.) -/
theorem cdp_call_notification_noninterference (counter : Nat) (method : String)
    (events eventsB : List (Option Frame)) (h : idFrames events = idFrames eventsB) :
    (cdpCall counter method events).1 = (cdpCall counter method eventsB).1 := by
  unfold cdpCall
  rw [cdpRecvLoop_eq_on_idFrames, h, ← cdpRecvLoop_eq_on_idFrames]

/-- Witness for the C8 theorem: a falsy frame and a notification inserted in
front of the matching reply do not change the correlated call's result. -/
theorem cdp_call_notification_noninterference_witness :
    (cdpCall 1000 "Runtime.evaluate" [none, some notifFrame, some frame1001]).1 =
      (cdpCall 1000 "Runtime.evaluate" [some frame1001]).1 :=
  cdp_call_notification_noninterference 1000 "Runtime.evaluate"
    [none, some notifFrame, some frame1001] [some frame1001] (by decide)

/-- C8 counterexample: inserting a single id-less notification in front of
the reply changes the value returned by `get_outer_html_from_diag` — whose
single unfiltered recv then parses the notification and falls back to
returning its raw text — and likewise changes the html returned by the
fetch inside `navigate_to_site`. -/
theorem single_recv_notification_interference :
    get_outer_html_from_diag [replyFrame] = .value "H" ∧
    get_outer_html_from_diag [notifFrame, replyFrame] = .rawText "RAWNOTIF" ∧
    OuterHtmlResult.value "H" ≠ OuterHtmlResult.rawText "RAWNOTIF" ∧
    (navigate_to_site navEnvReply30 (some "ws") none none true true).1.html = some "H" ∧
    (navigate_to_site navEnvNotifFirst (some "ws") none none true true).1.html = none := by
  exact ⟨rfl, rfl, by decide, rfl, rfl⟩

/-- On every run, `click_element` dispatches no mouse event and never
returns `True`: each path either raises before the click phase or hits the
rejected `timeout_s` keyword. -/
theorem click_element_never_dispatches (env : ClickEnv) (n : Nat) :
    (click_element env n).2 = [] ∧ (click_element env n).1 ≠ .ok true := by
  unfold click_element clickAfterQuery
  repeat' split
  all_goals simp_all [cdpCallKwOk]

/-- C5: every invocation of `click_element` whose selector query resolves a
non-zero node id raises `TypeError` before any mouse event is dispatched —
the scroll-into-view, box-model and mouse-event steps pass the keyword
argument `timeout_s` to `_cdp_call`, whose parameter is named `timeout` —
and consequently `click_element` never dispatches a mouse event and never
returns `True` on any run whatsoever. -/
theorem click_element_raises_typeerror (env : ClickEnv) (n : Nat)
    (ts : List Target) (pg : Target) (w : String) (r0 r1 r2 doc q : ClickReply)
    (h1 : env.targets = .ok ts)
    (h2 : ts.find? (fun t => t.type == "page") = some pg)
    (h3 : pg.webSocketDebuggerUrl = some w)
    (h4 : env.connectErr = none)
    (h5 : env.calls 0 = .ok r0) (h6 : env.calls 1 = .ok r1) (h7 : env.calls 2 = .ok r2)
    (h8 : env.calls (clickDebuggerBlock env 3) = .ok doc)
    (h9 : env.calls (clickDebuggerBlock env 3 + 1) = .ok q)
    (h10 : q.nodeId ≠ 0) :
    click_element env n = (.error (.typeError kwTypeErrorMsg), []) ∧
    ∀ envB : ClickEnv, ∀ m : Nat,
      (click_element envB m).2 = [] ∧ (click_element envB m).1 ≠ .ok true := by
  refine ⟨?_, fun envB m => click_element_never_dispatches envB m⟩
  unfold click_element clickAfterQuery
  rw [h1]
  simp [h2, h3, h4, h5, h6, h7, h8, h9, h10, cdpCallKwOk]

/-- Witness for the C5 theorem at the all-successful concrete environment
`clickEnvOk`, whose selector query resolves node id 7. -/
theorem click_element_raises_typeerror_witness :
    click_element clickEnvOk 1 = (.error (.typeError kwTypeErrorMsg), []) :=
  (click_element_raises_typeerror clickEnvOk 1 [pageTarget] pageTarget "ws"
    ⟨1, 7, [0, 0, 10, 0, 10, 10, 0, 10]⟩ ⟨1, 7, [0, 0, 10, 0, 10, 10, 0, 10]⟩
    ⟨1, 7, [0, 0, 10, 0, 10, 10, 0, 10]⟩ ⟨1, 7, [0, 0, 10, 0, 10, 10, 0, 10]⟩
    ⟨1, 7, [0, 0, 10, 0, 10, 10, 0, 10]⟩ rfl rfl rfl rfl rfl rfl rfl rfl rfl
    (by decide)).1

/-- C4 counterexample: with repeat count 1, the concrete all-successful run
`clickEnvOk` dispatches no mouse events at all — it raises `TypeError` at
the first dispatch — and in the event sequence the click loop constructs,
the first (move) event carries no button, not the left button. -/
theorem click_loop_counterexample :
    click_element clickEnvOk 1 = (.error (.typeError kwTypeErrorMsg), []) ∧
    (clickSteps 1 5 5).head? =
      some (.dispatch "timeout_s" ⟨"mouseMoved", 5, 5, none, none⟩) ∧
    (none : Option String) ≠ some "left" := by
  exact ⟨rfl, rfl, by decide⟩

/-- The click loop is `click_count` concatenated copies of its repetition
body. -/
theorem clickSteps_eq_join (n : Nat) (x y : ℚ) :
    clickSteps n x y = (List.replicate n (clickRepetition x y)).flatten := by
  induction n with
  | zero => rfl
  | succ m ih => simp [clickSteps, List.replicate_succ, ih]

/-- C4 (amended): for every repeat count n the click loop constructs, per
repetition, a move event, a press event and a release event at the computed
point, in that order, followed by a 0.05 pause — press and release with the
left button and click count 1, but the move event with no button — and
every dispatch is invoked with the keyword `timeout_s`, which `_cdp_call`
rejects; hence for any positive repeat count executing the loop raises
`TypeError` at the first dispatch and aborts the remaining repetitions with
no event dispatched (a failing dispatch call always propagates and aborts
the rest). -/
theorem click_loop_structure (n : Nat) (x y : ℚ) (outcomes : Nat → Option PyError) :
    clickSteps n x y = (List.replicate n (clickRepetition x y)).flatten ∧
    clickRepetition x y =
      [ .dispatch "timeout_s" ⟨"mouseMoved", x, y, none, none⟩,
        .dispatch "timeout_s" ⟨"mousePressed", x, y, some "left", some 1⟩,
        .dispatch "timeout_s" ⟨"mouseReleased", x, y, some "left", some 1⟩,
        .sleep (1 / 20) ] ∧
    cdpCallKwOk "timeout_s" = false ∧
    (0 < n → runClickSteps outcomes 0 (clickSteps n x y) =
      (.error (.typeError kwTypeErrorMsg), [])) := by
  refine ⟨clickSteps_eq_join n x y, rfl, rfl, ?_⟩
  intro hn
  cases n with
  | zero => exact absurd hn (by simp)
  | succ m => simp [clickSteps, clickRepetition, runClickSteps, cdpCallKwOk]

/-- Witness for the C4 theorem at repeat count 1 and all-successful dispatch
outcomes. -/
theorem click_loop_structure_witness :
    runClickSteps (fun _ => none) 0 (clickSteps 1 0 0) =
      (.error (.typeError kwTypeErrorMsg), []) :=
  (click_loop_structure 1 0 0 (fun _ => none)).2.2.2 (by norm_num)

/-- The 0-th receive attempt starts at `now`. -/
theorem arriveAt_zero (now : ℚ) (events : List (ℚ × Option Frame)) :
    arriveAt now events 0 = now := by simp [arriveAt]

/-- Shifting the arrival clock across the first event. -/
theorem arriveAt_cons (now d : ℚ) (raw : Option Frame) (rest : List (ℚ × Option Frame))
    (j : Nat) :
    arriveAt now ((d, raw) :: rest) (j + 1) = arriveAt (now + d) rest j := by
  simp [arriveAt]
  ring

/-- Unfolding `ReceivedUpTo` across the first event. -/
theorem receivedUpTo_cons_succ (deadline now d : ℚ) (raw : Option Frame)
    (rest : List (ℚ × Option Frame)) (i : Nat) :
    ReceivedUpTo deadline now ((d, raw) :: rest) (i + 1) ↔
      (now < deadline ∧ d < max floorTimeout (deadline - now)) ∧
      ReceivedUpTo deadline (now + d) rest i := by
  constructor
  · intro hr
    have h0 := hr 0 (Nat.zero_le _) (by simp)
    rw [arriveAt_zero] at h0
    refine ⟨⟨h0.1, by simpa using h0.2⟩, ?_⟩
    intro j hj hjl
    have hstep := hr (j + 1) (by omega) (by simpa using Nat.succ_lt_succ hjl)
    rwa [arriveAt_cons, List.getElem_cons_succ] at hstep
  · rintro ⟨⟨hnow, hd⟩, hr⟩ j hj hjl
    cases j with
    | zero =>
      rw [arriveAt_zero]
      exact ⟨hnow, by simpa using hd⟩
    | succ jj =>
      rw [arriveAt_cons, List.getElem_cons_succ]
      exact hr jj (by omega) (by simpa using hjl)

/-- `ReceivedUpTo` at index 0 on a nonempty event list is exactly the first
receive being on time. -/
theorem receivedUpTo_zero_cons (deadline now d : ℚ) (raw : Option Frame)
    (rest : List (ℚ × Option Frame)) :
    ReceivedUpTo deadline now ((d, raw) :: rest) 0 ↔
      now < deadline ∧ d < max floorTimeout (deadline - now) := by
  constructor
  · intro hr
    have h0 := hr 0 (Nat.le_refl _) (by simp)
    rw [arriveAt_zero] at h0
    exact ⟨h0.1, by simpa using h0.2⟩
  · rintro ⟨hnow, hd⟩ j hj hjl
    obtain rfl : j = 0 := Nat.le_zero.mp hj
    rw [arriveAt_zero]
    exact ⟨hnow, by simpa using hd⟩

/-- Every socket timeout the timed loop sets equals the remaining budget at
that moment, floored at 0.05, and every receive attempt starts strictly
before the deadline. -/
theorem cdpRecvLoopT_timeouts (msgId : Nat) (method : String) (deadline : ℚ) :
    ∀ (events : List (ℚ × Option Frame)) (now : ℚ) (k : Nat)
      (hk : k < ((cdpRecvLoopT msgId method deadline now events).2).length),
      ((cdpRecvLoopT msgId method deadline now events).2)[k] =
        max floorTimeout (deadline - arriveAt now events k) ∧
      arriveAt now events k < deadline := by
  intro events
  induction events with
  | nil =>
    intro now k hk
    by_cases h : now < deadline
    · simp only [cdpRecvLoopT, h, if_true] at hk ⊢
      obtain rfl : k = 0 := by simpa using hk
      simp [arriveAt_zero, h]
    · simp [cdpRecvLoopT, h] at hk
  | cons ev rest ih =>
    obtain ⟨d, raw⟩ := ev
    intro now k hk
    by_cases h : now < deadline
    · by_cases h2 : max floorTimeout (deadline - now) ≤ d
      · simp only [cdpRecvLoopT, h, if_true, h2] at hk ⊢
        obtain rfl : k = 0 := by simpa using hk
        simp [arriveAt_zero, h]
      · cases raw with
        | none =>
          simp only [cdpRecvLoopT, h, if_true, h2, if_false] at hk ⊢
          cases k with
          | zero => simp [arriveAt_zero, h]
          | succ kk =>
            have hk2 : kk < ((cdpRecvLoopT msgId method deadline (now + d) rest).2).length := by
              simpa using hk
            have := ih (now + d) kk hk2
            simpa [arriveAt_cons] using this
        | some f =>
          by_cases hm : f.idField == some msgId
          · cases herr : f.errField with
            | none =>
              simp only [cdpRecvLoopT, h, if_true, h2, if_false, hm, herr] at hk ⊢
              obtain rfl : k = 0 := by simpa using hk
              simp [arriveAt_zero, h]
            | some e =>
              simp only [cdpRecvLoopT, h, if_true, h2, if_false, hm, herr] at hk ⊢
              obtain rfl : k = 0 := by simpa using hk
              simp [arriveAt_zero, h]
          · simp only [cdpRecvLoopT, h, if_true, h2, if_false, hm] at hk ⊢
            cases k with
            | zero => simp [arriveAt_zero, h]
            | succ kk =>
              have hk2 : kk < ((cdpRecvLoopT msgId method deadline (now + d) rest).2).length := by
                simpa using hk
              have := ih (now + d) kk hk2
              simpa [arriveAt_cons] using this
    · simp [cdpRecvLoopT, h] at hk

/-- The timed loop raises `TimeoutError` exactly when no event bearing the
awaited id is reached and received in time. -/
theorem cdpRecvLoopT_timeout_iff (msgId : Nat) (method : String) (deadline : ℚ) :
    ∀ (events : List (ℚ × Option Frame)) (now : ℚ),
      ((cdpRecvLoopT msgId method deadline now events).1 =
          .timeoutError (timeoutMsg method) ↔
        ¬ ∃ i, ∃ hi : i < events.length,
          matchesId msgId events[i] = true ∧ ReceivedUpTo deadline now events i) := by
  intro events
  induction events with
  | nil =>
    intro now
    constructor
    · rintro _ ⟨i, hi, _⟩
      simp at hi
    · intro _
      by_cases h : now < deadline <;> simp [cdpRecvLoopT, h]
  | cons ev rest ih =>
    obtain ⟨d, raw⟩ := ev
    intro now
    by_cases h : now < deadline
    · by_cases h2 : max floorTimeout (deadline - now) ≤ d
      · simp only [cdpRecvLoopT, h, if_true, h2]
        constructor
        · rintro _ ⟨i, hi, hm, hrec⟩
          have h0 := hrec 0 (Nat.zero_le _) (by simp)
          rw [arriveAt_zero] at h0
          have hlt : d < max floorTimeout (deadline - now) := by simpa using h0.2
          exact absurd hlt (not_lt.mpr h2)
        · intro _
          trivial
      · have hd : d < max floorTimeout (deadline - now) := not_le.mp h2
        cases raw with
        | none =>
          simp only [cdpRecvLoopT, h, if_true, h2, if_false]
          rw [ih (now + d)]
          apply not_congr
          constructor
          · rintro ⟨i, hi, hm, hrec⟩
            exact ⟨i + 1, by simpa using Nat.succ_lt_succ hi, by simpa using hm,
              (receivedUpTo_cons_succ deadline now d none rest i).mpr ⟨⟨h, hd⟩, hrec⟩⟩
          · rintro ⟨i, hi, hm, hrec⟩
            cases i with
            | zero => simp [matchesId] at hm
            | succ ii =>
              exact ⟨ii, by simpa using hi, by simpa using hm,
                ((receivedUpTo_cons_succ deadline now d none rest ii).mp hrec).2⟩
        | some f =>
          by_cases hmf : f.idField == some msgId
          · have hex : ∃ i, ∃ hi : i < ((d, some f) :: rest).length,
                matchesId msgId ((d, some f) :: rest)[i] = true ∧
                ReceivedUpTo deadline now ((d, some f) :: rest) i :=
              ⟨0, by simp, by simpa [matchesId] using hmf,
                (receivedUpTo_zero_cons deadline now d (some f) rest).mpr ⟨h, hd⟩⟩
            cases herr : f.errField with
            | some e =>
              simp only [cdpRecvLoopT, h, if_true, h2, if_false, hmf, herr, eq_self_iff_true]
              constructor
              · intro heq
                exact absurd heq (by simp)
              · intro hne
                exact absurd hex hne
            | none =>
              simp only [cdpRecvLoopT, h, if_true, h2, if_false, hmf, herr, eq_self_iff_true]
              constructor
              · intro heq
                exact absurd heq (by simp)
              · intro hne
                exact absurd hex hne
          · simp only [cdpRecvLoopT, h, if_true, h2, if_false, hmf, Bool.false_eq_true]
            rw [ih (now + d)]
            apply not_congr
            constructor
            · rintro ⟨i, hi, hm, hrec⟩
              exact ⟨i + 1, by simpa using Nat.succ_lt_succ hi, by simpa using hm,
                (receivedUpTo_cons_succ deadline now d (some f) rest i).mpr ⟨⟨h, hd⟩, hrec⟩⟩
            · rintro ⟨i, hi, hm, hrec⟩
              cases i with
              | zero =>
                have : (f.idField == some msgId) = true := by simpa [matchesId] using hm
                exact absurd this (by simpa using hmf)
              | succ ii =>
                exact ⟨ii, by simpa using hi, by simpa using hm,
                  ((receivedUpTo_cons_succ deadline now d (some f) rest ii).mp hrec).2⟩
    · simp only [cdpRecvLoopT, h, if_false]
      constructor
      · rintro _ ⟨i, hi, hm, hrec⟩
        have h0 := hrec 0 (Nat.zero_le _) (by simp)
        rw [arriveAt_zero] at h0
        exact absurd h0.1 h
      · intro _
        trivial

/-- C2 (amended): every receive attempt of `_cdp_call` uses a socket
timeout equal to the remaining budget (deadline minus now at that attempt)
lower-bounded by the 0.05 floor, and every attempt starts strictly before
the deadline; a falsy receive before the deadline re-enters the loop; and
the call raises `TimeoutError` naming the method exactly when the loop
reaches and receives no frame bearing the awaited id — where, because of
the 0.05 floor, the final receive can still accept a matching reply that
arrives up to 0.05 time-units after the absolute deadline, so "the deadline
elapsed without a matching reply having arrived" does not always yield a
`TimeoutError` (see the counterexample). -/
theorem cdp_call_timed_characterization (msgId : Nat) (method : String)
    (deadline now : ℚ) (events : List (ℚ × Option Frame)) :
    (∀ k, ∀ hk : k < ((cdpRecvLoopT msgId method deadline now events).2).length,
      ((cdpRecvLoopT msgId method deadline now events).2)[k] =
        max floorTimeout (deadline - arriveAt now events k) ∧
      arriveAt now events k < deadline) ∧
    ((cdpRecvLoopT msgId method deadline now events).1 =
        .timeoutError (timeoutMsg method) ↔
      ¬ ∃ i, ∃ hi : i < events.length,
        matchesId msgId events[i] = true ∧ ReceivedUpTo deadline now events i) :=
  ⟨fun k hk => cdpRecvLoopT_timeouts msgId method deadline events now k hk,
   cdpRecvLoopT_timeout_iff msgId method deadline events now⟩

/-- Witness for the C2 theorem on the run with budget 1 starting at time 0
and a single falsy frame arriving after 1/2: the first socket timeout is the
full budget 1, the second is the remaining 1/2, and the call raises the
`TimeoutError` naming the method. -/
theorem cdp_call_timed_characterization_witness :
    ((cdpRecvLoopT 5 "m" 1 0 [((1 : ℚ) / 2, (none : Option Frame))]).2).get
        ⟨0, by norm_num [cdpRecvLoopT, floorTimeout]⟩ =
      max floorTimeout (1 - arriveAt 0 [((1 : ℚ) / 2, (none : Option Frame))] 0) ∧
    arriveAt (0 : ℚ) [((1 : ℚ) / 2, (none : Option Frame))] 0 < 1 ∧
    (cdpRecvLoopT 5 "m" 1 0 [((1 : ℚ) / 2, (none : Option Frame))]).1 =
      .timeoutError (timeoutMsg "m") := by
  have h := cdp_call_timed_characterization 5 "m" 1 0 [((1 : ℚ) / 2, none)]
  have h1 := h.1 0 (by norm_num [cdpRecvLoopT, floorTimeout])
  refine ⟨h1.1, h1.2, h.2.mpr ?_⟩
  rintro ⟨i, hi, hm, _⟩
  obtain rfl : i = 0 := by simpa using hi
  simp [matchesId] at hm

/-- C2 counterexample: with a 6-unit budget starting at time 0, the channel
is quiet for 5.99 units (one falsy frame), leaving 0.01 of budget; the floor
lifts the final socket timeout to 0.05 and the matching reply arriving 0.04
later — 0.03 after the absolute deadline — is accepted and returned: the
deadline elapsed without a matching reply having arrived, yet the call does
not fail with `TimeoutError`. -/
theorem cdp_call_floor_window_counterexample :
    (cdpRecvLoopT 1001 "Runtime.evaluate" 6 0
        [((599 : ℚ) / 100, none), ((1 : ℚ) / 25, some frame1001)]).1 =
      .ok frame1001 ∧
    (6 : ℚ) < arriveAt 0 [((599 : ℚ) / 100, none), ((1 : ℚ) / 25, some frame1001)] 2 := by
  constructor
  · norm_num [cdpRecvLoopT, floorTimeout, frame1001]
  · norm_num [arriveAt]

/-- The 0-th poll starts with no elapsed offset. -/
theorem pollStart_zero (pollInterval : ℚ) (samples : List (Bool × ℚ)) :
    pollStart pollInterval samples 0 = 0 := by simp [pollStart]

/-- Shifting the poll clock across the first sample. -/
theorem pollStart_succ_cons (pollInterval d : ℚ) (v : Bool) (rest : List (Bool × ℚ))
    (j : Nat) :
    pollStart pollInterval ((v, d) :: rest) (j + 1) =
      (d + pollInterval) + pollStart pollInterval rest j := by
  simp [pollStart]

/-- With nonnegative evaluation times and a nonnegative poll interval, poll
offsets are nonnegative. -/
theorem pollStart_nonneg (pollInterval : ℚ) (hpi : 0 ≤ pollInterval)
    (samples : List (Bool × ℚ)) (hnn : ∀ s ∈ samples, 0 ≤ s.2) (j : Nat) :
    0 ≤ pollStart pollInterval samples j := by
  apply List.sum_nonneg
  intro x hx
  obtain ⟨s, hs, rfl⟩ := List.mem_map.mp hx
  have hmem : s ∈ samples := List.take_subset _ _ hs
  have := hnn s hmem
  linarith

/-- With nonnegative evaluation times, poll offsets grow with the index. -/
theorem pollStart_mono (pollInterval : ℚ) (hpi : 0 ≤ pollInterval)
    (samples : List (Bool × ℚ)) (hnn : ∀ s ∈ samples, 0 ≤ s.2) (j k : Nat)
    (hjk : j ≤ k) :
    pollStart pollInterval samples j ≤ pollStart pollInterval samples k := by
  unfold pollStart
  have h1 : (samples.take k).take j = samples.take j := by
    rw [List.take_take, Nat.min_eq_left hjk]
  have hdec : samples.take k = samples.take j ++ (samples.take k).drop j := by
    rw [← h1, List.take_append_drop]
  rw [hdec, List.map_append, List.sum_append]
  have hpos : 0 ≤ (((samples.take k).drop j).map (fun s => s.2 + pollInterval)).sum := by
    apply List.sum_nonneg
    intro x hx
    obtain ⟨s, hs, rfl⟩ := List.mem_map.mp hx
    have hmem : s ∈ samples := List.take_subset _ _ (List.drop_subset _ _ hs)
    have := hnn s hmem
    linarith
  linarith

/-- The polling loop reports success exactly when some position opens a
long-enough run of consecutive false samples whose last poll still starts
before the deadline (generalized over the running stable counter). -/
theorem waitLoop_true_iff_gen (thr : Nat) (pollInterval deadline : ℚ)
    (hpi : 0 ≤ pollInterval) :
    ∀ (samples : List (Bool × ℚ)) (now : ℚ) (stable : Nat),
      stable < thr → (∀ s ∈ samples, 0 ≤ s.2) →
      (waitLoop thr pollInterval deadline now stable samples = some true ↔
        FalseWindow thr pollInterval deadline now stable samples) := by
  intro samples
  induction samples with
  | nil =>
    intro now stable hst hnn
    constructor
    · intro heq
      by_cases h : now < deadline <;> simp [waitLoop, h] at heq
    · rintro ⟨n, hlen, -, -⟩
      exfalso
      cases n with
      | zero =>
        simp only [windowLen, if_true, List.length_nil, Nat.add_zero, reduceIte] at hlen
        omega
      | succ m =>
        simp only [windowLen, List.length_nil] at hlen
        omega
  | cons sample rest ih =>
    obtain ⟨v, d⟩ := sample
    intro now stable hst hnn
    have hthr : 0 < thr := by omega
    have hd0 : 0 ≤ d := by
      have := hnn (v, d) (List.mem_cons_self _ _)
      simpa using this
    have hnnrest : ∀ s ∈ rest, 0 ≤ s.2 := fun s hs => hnn s (List.mem_cons_of_mem _ hs)
    by_cases h : now < deadline
    · cases v with
      | true =>
        rw [show waitLoop thr pollInterval deadline now stable ((true, d) :: rest) =
              waitLoop thr pollInterval deadline (now + d + pollInterval) 0 rest from by
            simp [waitLoop, h]]
        rw [ih (now + d + pollInterval) 0 hthr hnnrest]
        constructor
        · rintro ⟨m, hlen, hf, hdl⟩
          have hw : windowLen thr 0 m = thr := by cases m <;> simp [windowLen]
          rw [hw] at hlen hf hdl
          have hw2 : windowLen thr stable (m + 1) = thr := by simp [windowLen]
          refine ⟨m + 1, ?_, ?_, ?_⟩
          · rw [hw2]
            simp only [List.length_cons]
            omega
          · intro j hj1 hj2 hjl
            rw [hw2] at hj2
            cases j with
            | zero => omega
            | succ jj =>
              rw [List.getElem_cons_succ]
              exact hf jj (by omega) (by omega) (by simpa using hjl)
          · rw [hw2]
            have hidx : m + 1 + thr - 1 = (m + thr - 1) + 1 := by omega
            rw [hidx, pollStart_succ_cons]
            linarith
        · rintro ⟨n, hlen, hf, hdl⟩
          cases n with
          | zero =>
            exfalso
            have hw : 0 < windowLen thr stable 0 := by
              simp only [windowLen, reduceIte]
              omega
            have := hf 0 (Nat.le_refl _) (by omega) (by simp)
            simp at this
          | succ m =>
            have hw : windowLen thr stable (m + 1) = thr := by simp [windowLen]
            rw [hw] at hlen hf hdl
            have hwm : windowLen thr 0 m = thr := by cases m <;> simp [windowLen]
            refine ⟨m, ?_, ?_, ?_⟩
            · rw [hwm]
              simp only [List.length_cons] at hlen
              omega
            · intro j hj1 hj2 hjl
              rw [hwm] at hj2
              have := hf (j + 1) (by omega) (by omega) (by simpa using Nat.succ_lt_succ hjl)
              simpa using this
            · rw [hwm]
              have hidx : m + 1 + thr - 1 = (m + thr - 1) + 1 := by omega
              rw [hidx, pollStart_succ_cons] at hdl
              linarith
      | false =>
        by_cases hth : thr ≤ stable + 1
        · have hLHS : waitLoop thr pollInterval deadline now stable ((false, d) :: rest) =
              some true := by
            simp [waitLoop, h, hth]
          rw [hLHS]
          constructor
          · intro _
            have hw : windowLen thr stable 0 = 1 := by
              simp only [windowLen, reduceIte]
              omega
            refine ⟨0, ?_, ?_, ?_⟩
            · rw [hw]
              simp
            · intro j hj1 hj2 hjl
              rw [hw] at hj2
              obtain rfl : j = 0 := by omega
              simp
            · rw [hw]
              simpa [pollStart_zero] using h
          · intro _
            rfl
        · rw [show waitLoop thr pollInterval deadline now stable ((false, d) :: rest) =
                waitLoop thr pollInterval deadline (now + d + pollInterval) (stable + 1) rest
              from by simp [waitLoop, h, hth]]
          rw [ih (now + d + pollInterval) (stable + 1) (by omega) hnnrest]
          constructor
          · rintro ⟨m, hlen, hf, hdl⟩
            cases m with
            | zero =>
              have hw : windowLen thr (stable + 1) 0 = thr - (stable + 1) := by
                simp [windowLen]
              rw [hw] at hlen hf hdl
              have hww : windowLen thr stable 0 = thr - stable := by simp [windowLen]
              refine ⟨0, ?_, ?_, ?_⟩
              · rw [hww]
                simp only [List.length_cons]
                omega
              · intro j hj1 hj2 hjl
                rw [hww] at hj2
                cases j with
                | zero => simp
                | succ jj =>
                  rw [List.getElem_cons_succ]
                  exact hf jj (by omega) (by omega) (by simpa using hjl)
              · rw [hww]
                have hidx : 0 + (thr - stable) - 1 = (0 + (thr - (stable + 1)) - 1) + 1 := by
                  omega
                rw [hidx, pollStart_succ_cons]
                linarith
            | succ mm =>
              have hw : windowLen thr (stable + 1) (mm + 1) = thr := by simp [windowLen]
              rw [hw] at hlen hf hdl
              have hww : windowLen thr stable (mm + 2) = thr := by simp [windowLen]
              refine ⟨mm + 2, ?_, ?_, ?_⟩
              · rw [hww]
                simp only [List.length_cons]
                omega
              · intro j hj1 hj2 hjl
                rw [hww] at hj2
                cases j with
                | zero => omega
                | succ jj =>
                  rw [List.getElem_cons_succ]
                  exact hf jj (by omega) (by omega) (by simpa using hjl)
              · rw [hww]
                have hidx : mm + 2 + thr - 1 = (mm + 1 + thr - 1) + 1 := by omega
                rw [hidx, pollStart_succ_cons]
                linarith
          · rintro ⟨n, hlen, hf, hdl⟩
            cases n with
            | zero =>
              have hw : windowLen thr stable 0 = thr - stable := by simp [windowLen]
              rw [hw] at hlen hf hdl
              have hww : windowLen thr (stable + 1) 0 = thr - (stable + 1) := by
                simp [windowLen]
              refine ⟨0, ?_, ?_, ?_⟩
              · rw [hww]
                simp only [List.length_cons] at hlen
                omega
              · intro j hj1 hj2 hjl
                rw [hww] at hj2
                have := hf (j + 1) (by omega) (by omega) (by simpa using Nat.succ_lt_succ hjl)
                simpa using this
              · rw [hww]
                have hidx : 0 + (thr - stable) - 1 = (0 + (thr - (stable + 1)) - 1) + 1 := by
                  omega
                rw [hidx, pollStart_succ_cons] at hdl
                linarith
            | succ m =>
              have hw : windowLen thr stable (m + 1) = thr := by simp [windowLen]
              rw [hw] at hlen hf hdl
              cases m with
              | zero =>
                have hww : windowLen thr (stable + 1) 0 = thr - (stable + 1) := by
                  simp [windowLen]
                refine ⟨0, ?_, ?_, ?_⟩
                · rw [hww]
                  simp only [List.length_cons] at hlen
                  omega
                · intro j hj1 hj2 hjl
                  rw [hww] at hj2
                  have := hf (j + 1) (by omega) (by omega)
                    (by simpa using Nat.succ_lt_succ hjl)
                  simpa using this
                · rw [hww]
                  have hidx : 0 + 1 + thr - 1 = (thr - 1) + 1 := by omega
                  rw [hidx, pollStart_succ_cons] at hdl
                  have hmono := pollStart_mono pollInterval hpi rest hnnrest
                    (0 + (thr - (stable + 1)) - 1) (thr - 1) (by omega)
                  linarith
              | succ mm =>
                have hww : windowLen thr (stable + 1) (mm + 1) = thr := by simp [windowLen]
                refine ⟨mm + 1, ?_, ?_, ?_⟩
                · rw [hww]
                  simp only [List.length_cons] at hlen
                  omega
                · intro j hj1 hj2 hjl
                  rw [hww] at hj2
                  have := hf (j + 1) (by omega) (by omega)
                    (by simpa using Nat.succ_lt_succ hjl)
                  simpa using this
                · rw [hww]
                  have hidx : mm + 1 + 1 + thr - 1 = (mm + 1 + thr - 1) + 1 := by omega
                  rw [hidx, pollStart_succ_cons] at hdl
                  linarith
    · constructor
      · intro heq
        simp [waitLoop, h] at heq
      · rintro ⟨n, hlen, hf, hdl⟩
        exfalso
        have hnn0 : 0 ≤ pollStart pollInterval ((v, d) :: rest)
            (n + windowLen thr stable n - 1) :=
          pollStart_nonneg pollInterval hpi _ hnn _
        exact h (by linarith)

/-- C6: the readiness poller `wait_until_loader_hidden` reports success
exactly when the visibility predicate has evaluated false on the configured
number of consecutive polls whose last poll still starts before the
deadline; any true sample resets the consecutive counter to 0; when the
deadline elapses the loop reports failure (returns false); and on the
predicate sequence [true, true, false, false] with the default parameters
(timeout 30, poll interval 0.25, threshold 2) it succeeds only after the
second consecutive false — after the first false alone it has not yet
succeeded. -/
theorem wait_until_loader_hidden_consecutive (thr : Nat) (timeout pollInterval : ℚ)
    (samples : List (Bool × ℚ)) (hthr : 0 < thr) (hpi : 0 ≤ pollInterval)
    (hnn : ∀ s ∈ samples, 0 ≤ s.2) :
    (wait_until_loader_hidden timeout pollInterval thr samples = some true ↔
      ∃ n, n + thr ≤ samples.length ∧
        (∀ j, n ≤ j → j < n + thr → ∀ hj : j < samples.length, samples[j].1 = false) ∧
        pollStart pollInterval samples (n + thr - 1) < timeout) ∧
    (∀ (now : ℚ) (stable : Nat) (d : ℚ) (rest : List (Bool × ℚ)),
      now < timeout →
      waitLoop thr pollInterval timeout now stable ((true, d) :: rest) =
        waitLoop thr pollInterval timeout (now + d + pollInterval) 0 rest) ∧
    (∀ (now : ℚ) (stable : Nat), timeout ≤ now →
      waitLoop thr pollInterval timeout now stable samples = some false) ∧
    wait_until_loader_hidden 30 (1 / 4) 2 [(true, 0), (true, 0), (false, 0), (false, 0)] =
      some true ∧
    wait_until_loader_hidden 30 (1 / 4) 2 [(true, 0), (true, 0), (false, 0)] ≠ some true := by
  refine ⟨?_, ?_, ?_, ?_, ?_⟩
  · have hgen := waitLoop_true_iff_gen thr pollInterval timeout hpi samples 0 0 hthr hnn
    rw [wait_until_loader_hidden, hgen]
    unfold FalseWindow
    constructor
    · rintro ⟨n, h1, h2, h3⟩
      have hw : windowLen thr 0 n = thr := by cases n <;> simp [windowLen]
      rw [hw] at h1 h2 h3
      exact ⟨n, h1, h2, by simpa using h3⟩
    · rintro ⟨n, h1, h2, h3⟩
      have hw : windowLen thr 0 n = thr := by cases n <;> simp [windowLen]
      refine ⟨n, ?_, ?_, ?_⟩
      · rw [hw]; exact h1
      · rw [hw]; exact h2
      · rw [hw]; simpa using h3
  · intro now stable d rest hlt
    simp [waitLoop, hlt]
  · intro now stable hge
    cases samples <;> simp [waitLoop, not_lt.mpr hge]
  · norm_num [wait_until_loader_hidden, waitLoop]
  · norm_num [wait_until_loader_hidden, waitLoop]
    exact fun h => Option.noConfusion h

/-- Witness for the C6 theorem at the default parameters and the claim's
own sample sequence. -/
theorem wait_until_loader_hidden_consecutive_witness :
    wait_until_loader_hidden 30 (1 / 4) 2 [(true, 0), (true, 0), (false, 0), (false, 0)] =
      some true ∧
    wait_until_loader_hidden 30 (1 / 4) 2 [(true, 0), (true, 0), (false, 0)] ≠ some true := by
  have h := wait_until_loader_hidden_consecutive 2 30 (1 / 4)
    [(true, 0), (true, 0), (false, 0), (false, 0)] (by norm_num) (by norm_num)
    (by intro s hs; fin_cases hs <;> norm_num)
  exact ⟨h.2.2.2.1, h.2.2.2.2⟩

end Travian
